import Mathlib

/-!
Verification of the dochub repository's session/auth lifecycle and
dashboard aggregation logic, as a shallow embedding in Lean 4.

The embedding covers:
- the auth client wrappers (login, signup, getCurrentUser),
- the two document API clients present in the repository
  (one reads the backend detail field on failure, the other ignores it),
- the session context (AuthProvider): startup hydration, handleLogin,
  handleSignup, handleLogout, fetchUser, with localStorage modelled as an
  Option String cell inside the session state,
- the dashboard's derived field-row list (the search-tab flattening).

JavaScript truthiness matters in three places and is modelled explicitly:
a stored token is used only when non-empty, the search term selects backend
results only when non-empty, and a detail string is surfaced only when
non-empty.
-/

/-- JavaScript truthiness of a string: the empty string is falsy. -/
def jsTruthy (s : String) : Bool := !s.isEmpty

/-- The JavaScript expression a OR b for an optional string a:
returns a when a is present and truthy, else b. -/
def jsOrElse (a : Option String) (b : String) : String :=
  match a with
  | some s => if jsTruthy s then s else b
  | none => b

/-- Parsed JSON body of an HTTP response together with its ok flag.
payload is the success-shaped parse; detail is the error field of the
body when the backend supplied one. -/
structure HttpResponse (α : Type) where
  ok : Bool
  detail : Option String
  payload : α
  deriving Repr

/-- Payload of POST /auth/login. -/
structure LoginResponse where
  user_id : String
  access_token : String
  deriving Repr, DecidableEq

/-- Payload of GET /auth/me. -/
structure AuthUser where
  id : String
  email : String
  deriving Repr, DecidableEq

namespace AuthClient

/-- login wrapper: on a non-ok response throws the body detail when
truthy, else the fixed fallback; on ok returns the parsed payload. -/
def login (resp : HttpResponse LoginResponse) : Except String LoginResponse :=
  if resp.ok then Except.ok resp.payload
  else Except.error (jsOrElse resp.detail "Login failed")

/-- getCurrentUser wrapper, same failure contract with its own fallback. -/
def getCurrentUser (resp : HttpResponse AuthUser) : Except String AuthUser :=
  if resp.ok then Except.ok resp.payload
  else Except.error (jsOrElse resp.detail "Failed to get user info")

/-- signup wrapper, same failure contract with its own fallback. -/
def signup (resp : HttpResponse String) : Except String String :=
  if resp.ok then Except.ok resp.payload
  else Except.error (jsOrElse resp.detail "Signup failed")

end AuthClient

namespace DocApi

/-- processDocument wrapper of the documents client that reads the
backend detail field on failure. -/
def processDocument {α : Type} (resp : HttpResponse α) : Except String α :=
  if resp.ok then Except.ok resp.payload
  else Except.error (jsOrElse resp.detail "Failed to process document")

/-- getDocuments wrapper of the detail-reading documents client. -/
def getDocuments {α : Type} (resp : HttpResponse α) : Except String α :=
  if resp.ok then Except.ok resp.payload
  else Except.error (jsOrElse resp.detail "Failed to fetch documents")

/-- searchDocuments wrapper of the detail-reading documents client. -/
def searchDocuments {α : Type} (resp : HttpResponse α) : Except String α :=
  if resp.ok then Except.ok resp.payload
  else Except.error (jsOrElse resp.detail "Failed to search documents")

/-- getCategorizedFields wrapper of the detail-reading documents client. -/
def getCategorizedFields {α : Type} (resp : HttpResponse α) : Except String α :=
  if resp.ok then Except.ok resp.payload
  else Except.error (jsOrElse resp.detail "Failed to categorize fields")

end DocApi

namespace LibApi

/-- processDocument wrapper of src/lib/api.ts: on a non-ok response it
throws the fixed fallback string without reading the body at all. -/
def processDocument {α : Type} (resp : HttpResponse α) : Except String α :=
  if resp.ok then Except.ok resp.payload
  else Except.error "Failed to process document"

/-- getDocuments wrapper of src/lib/api.ts, fixed fallback only. -/
def getDocuments {α : Type} (resp : HttpResponse α) : Except String α :=
  if resp.ok then Except.ok resp.payload
  else Except.error "Failed to fetch documents"

/-- searchDocuments wrapper of src/lib/api.ts, fixed fallback only. -/
def searchDocuments {α : Type} (resp : HttpResponse α) : Except String α :=
  if resp.ok then Except.ok resp.payload
  else Except.error "Failed to search documents"

end LibApi

/-- Behaviour of the remote auth backend during one browser lifecycle:
what each of the three auth-client calls returns for each input. Errors
carry the user-visible message string thrown by the client wrapper. -/
structure Backend where
  login : String → String → Except String LoginResponse
  signup : String → String → Except String String
  getCurrentUser : String → Except String AuthUser

/-- State owned by AuthProvider (the three useState cells) together with
the durable localStorage token cell that it reads and writes. -/
structure AuthState where
  token : Option String
  user : Option AuthUser
  isAuthenticated : Bool
  storage : Option String
  deriving Repr, DecidableEq

/-- AuthProvider before the mount effect runs: all three useState cells
empty, storage holding whatever survived from a previous visit. -/
def initialState (storage : Option String) : AuthState :=
  { token := none, user := none, isAuthenticated := false, storage := storage }

/-- handleLogout: clears token, user and the authenticated flag and
removes the stored token. -/
def handleLogout (s : AuthState) : AuthState :=
  { s with token := none, user := none, isAuthenticated := false, storage := none }

/-- fetchUser: calls getCurrentUser with the access token; on success
stores the returned user record; on failure calls handleLogout and
re-throws the error. -/
def fetchUser (env : Backend) (s : AuthState) (accessToken : String) :
    Except String Unit × AuthState :=
  match env.getCurrentUser accessToken with
  | Except.ok userData =>
      (Except.ok (), { s with user := some { id := userData.id, email := userData.email } })
  | Except.error e => (Except.error e, handleLogout s)

/-- handleLogin: calls the auth-client login, then fetchUser with the
returned token before committing; on success commits the token to state
and storage and sets the authenticated flag; on any failure in the
sequence calls handleLogout and re-throws. -/
def handleLogin (env : Backend) (s : AuthState) (email password : String) :
    Except String Unit × AuthState :=
  match env.login email password with
  | Except.error e => (Except.error e, handleLogout s)
  | Except.ok lr =>
      match fetchUser env s lr.access_token with
      | (Except.error e, s1) => (Except.error e, handleLogout s1)
      | (Except.ok _, s1) =>
          (Except.ok (),
           { s1 with token := some lr.access_token,
                     storage := some lr.access_token,
                     isAuthenticated := true })

/-- handleSignup: calls the auth-client signup and, when it succeeds,
runs handleLogin with the same credentials; any error is re-thrown. -/
def handleSignup (env : Backend) (s : AuthState) (email password : String) :
    Except String Unit × AuthState :=
  match env.signup email password with
  | Except.error e => (Except.error e, s)
  | Except.ok _ => handleLogin env s email password

/-- Synchronous part of the mount effect: reads the stored token; when
it is present and truthy, sets the token cell and the authenticated flag
and leaves a pending fetchUser call for that token. Returns the state
observable while that call is still in flight, plus the pending token. -/
def hydrateSync (s : AuthState) : AuthState × Option String :=
  match s.storage with
  | some savedToken =>
      if jsTruthy savedToken then
        ({ s with token := some savedToken, isAuthenticated := true }, some savedToken)
      else (s, none)
  | none => (s, none)

/-- Asynchronous completion of the mount effect: the pending fetchUser
resolves; on rejection the attached catch handler calls handleLogout
(after fetchUser itself already did). -/
def hydrateAsync (env : Backend) (s : AuthState) (pending : Option String) : AuthState :=
  match pending with
  | none => s
  | some savedToken =>
      match fetchUser env s savedToken with
      | (Except.ok _, s1) => s1
      | (Except.error _, s1) => handleLogout s1

/-- Full startup hydration: the mount effect followed by the resolution
of the verification it started. -/
def hydrate (env : Backend) (s : AuthState) : AuthState :=
  hydrateAsync env (hydrateSync s).1 (hydrateSync s).2

/-- A document record as the dashboard consumes it. fields models the
JSON object as an insertion-ordered association list; none stands for an
absent or null fields property. -/
structure Document where
  id : String
  file_name : String
  document_type : String
  pdf_url : Option String
  processed_at : String
  fields : Option (List (String × String))
  deriving Repr, DecidableEq

/-- One row of the extracted-info table, the same shape the backend
search endpoint returns. -/
structure SearchResult where
  field_name : String
  field_value : String
  document_name : String
  pdf_url : Option String
  deriving Repr, DecidableEq

/-- The rows the search tab displays: when the search term is truthy,
exactly the backend search results; otherwise every document's fields
object (defaulted to empty when absent) flatMapped to one row per field
entry, tagged with the document's file name and pdf url. -/
def displayedRows (searchTerm : String) (searchResults : List SearchResult)
    (documents : List Document) : List SearchResult :=
  if jsTruthy searchTerm then searchResults
  else
    documents.flatMap fun doc =>
      (doc.fields.getD []).map fun entry =>
        { field_name := entry.1
          field_value := entry.2
          document_name := doc.file_name
          pdf_url := doc.pdf_url }

/-- Modelled from the spec: the row list described in section 4.4 as the
concatenation, in document list order, of each document's field entries
in map order, each entry emitted as one row tagged with that document's
name and pdf url. Written independently of displayedRows, by recursion
on the document list, to compare the two. -/
def specFlattenRows : List Document → List SearchResult
  | [] => []
  | doc :: rest =>
      ((doc.fields.getD []).map fun entry =>
        SearchResult.mk entry.1 entry.2 doc.file_name doc.pdf_url)
      ++ specFlattenRows rest

/-- The two-document example of testable property 4 of the spec. -/
def exampleDocs : List Document :=
  [ { id := "1", file_name := "a.pdf", document_type := "other", pdf_url := none,
      processed_at := "", fields := some [("Name", "X"), ("Email", "y@z.com")] },
    { id := "2", file_name := "b.pdf", document_type := "other", pdf_url := none,
      processed_at := "", fields := some [("DOB", "2000-01-01")] } ]

/-- The three rows property 4 of the spec expects for exampleDocs. -/
def exampleRows : List SearchResult :=
  [ { field_name := "Name", field_value := "X", document_name := "a.pdf", pdf_url := none },
    { field_name := "Email", field_value := "y@z.com", document_name := "a.pdf", pdf_url := none },
    { field_name := "DOB", field_value := "2000-01-01", document_name := "b.pdf", pdf_url := none } ]

/-- Backend on which every credential pair logs in and every token
verifies to the same user. -/
def envGood : Backend :=
  { login := fun _ _ => Except.ok { user_id := "u1", access_token := "tok1" }
    signup := fun _ _ => Except.ok "User created"
    getCurrentUser := fun t =>
      if t = "tok1" then Except.ok { id := "u1", email := "a@b.c" }
      else Except.error "Could not validate credentials" }

/-- Backend on which login succeeds but no token verifies. -/
def envVerifyFail : Backend :=
  { login := fun _ _ => Except.ok { user_id := "u1", access_token := "tok1" }
    signup := fun _ _ => Except.ok "User created"
    getCurrentUser := fun _ => Except.error "Could not validate credentials" }

/-- Backend on which the login call itself fails while every token
verifies, so no verification failure can ever occur. -/
def envLoginFail : Backend :=
  { login := fun _ _ => Except.error "Invalid credentials"
    signup := fun _ _ => Except.ok "User created"
    getCurrentUser := fun _ => Except.ok { id := "u1", email := "a@b.c" } }

/-- Backend on which the signup call fails. -/
def envSignupFail : Backend :=
  { login := fun _ _ => Except.ok { user_id := "u1", access_token := "tok1" }
    signup := fun _ _ => Except.error "Email already registered"
    getCurrentUser := fun _ => Except.ok { id := "u1", email := "a@b.c" } }

/-- A non-empty string is truthy. -/
theorem jsTruthy_of_ne_empty (t : String) (h : t ≠ "") : jsTruthy t = true := by
  simp only [jsTruthy, Bool.not_eq_true']
  exact Bool.eq_false_iff.mpr fun hh => h ((String.isEmpty_iff t).mp hh)

/-- The empty string is falsy. -/
theorem jsTruthy_empty : jsTruthy "" = false := by decide

/-- C1: the session invariant fails during startup hydration. With a
stored token whose verification fails, the synchronous part of the mount
effect already marks the session authenticated and holding that token,
while its verification has not succeeded (here it can never succeed);
only when the pending getCurrentUser call later rejects does the session
fall back to the cleared state. -/
theorem c1_hydration_marks_authenticated_before_verification :
    (hydrateSync (initialState (some "stale"))).1.isAuthenticated = true
      ∧ (hydrateSync (initialState (some "stale"))).1.token = some "stale"
      ∧ envVerifyFail.getCurrentUser "stale" = Except.error "Could not validate credentials"
      ∧ hydrate envVerifyFail (initialState (some "stale"))
          = { token := none, user := none, isAuthenticated := false, storage := none } := by
  refine ⟨?_, ?_, rfl, ?_⟩
  · decide
  · decide
  · decide

/-- C3: when the login call succeeds but the verification call made with
the returned token fails, handleLogin re-signals exactly that error and
leaves the session fully cleared: token, user and authenticated flag
reset and the durable storage entry removed, whatever the prior state. -/
theorem c3_login_verification_failure_is_atomic
    (env : Backend) (s : AuthState) (email password : String)
    (lr : LoginResponse) (err : String)
    (hLogin : env.login email password = Except.ok lr)
    (hUser : env.getCurrentUser lr.access_token = Except.error err) :
    handleLogin env s email password =
      (Except.error err,
       { token := none, user := none, isAuthenticated := false, storage := none }) := by
  simp [handleLogin, hLogin, fetchUser, hUser, handleLogout]

/-- Witness for C3 at a concrete backend and prior state. -/
theorem c3_witness :
    handleLogin envVerifyFail (initialState (some "old")) "a@b.c" "pw" =
      (Except.error "Could not validate credentials",
       { token := none, user := none, isAuthenticated := false, storage := none }) :=
  c3_login_verification_failure_is_atomic envVerifyFail (initialState (some "old"))
    "a@b.c" "pw" { user_id := "u1", access_token := "tok1" }
    "Could not validate credentials" rfl rfl

/-- C5: when the login call succeeds and the verification call on the
returned access token succeeds, handleLogin commits that token to the
session and to durable storage, stores the user record getCurrentUser
returned, and marks the session authenticated. -/
theorem c5_login_success_commits
    (env : Backend) (s : AuthState) (email password : String)
    (lr : LoginResponse) (u : AuthUser)
    (hLogin : env.login email password = Except.ok lr)
    (hUser : env.getCurrentUser lr.access_token = Except.ok u) :
    handleLogin env s email password =
      (Except.ok (),
       { token := some lr.access_token, user := some u,
         isAuthenticated := true, storage := some lr.access_token }) := by
  simp [handleLogin, hLogin, fetchUser, hUser]

/-- Witness for C5 at a concrete backend and prior state. -/
theorem c5_witness :
    handleLogin envGood (initialState none) "a@b.c" "pw" =
      (Except.ok (),
       { token := some "tok1", user := some { id := "u1", email := "a@b.c" },
         isAuthenticated := true, storage := some "tok1" }) :=
  c5_login_success_commits envGood (initialState none) "a@b.c" "pw"
    { user_id := "u1", access_token := "tok1" }
    { id := "u1", email := "a@b.c" } rfl (by simp [envGood])

/-- C6: handleLogout from any session state yields the fully cleared
state with the durable storage entry removed, and running it twice
yields the same state as running it once. -/
theorem c6_logout_total_idempotent (s : AuthState) :
    handleLogout s =
      { token := none, user := none, isAuthenticated := false, storage := none }
      ∧ handleLogout (handleLogout s) = handleLogout s := by
  exact ⟨rfl, rfl⟩

/-- C4: with an empty search term, the displayed rows are exactly the
concatenation, in document list order, of each document's field entries
in map order, each entry tagged with that document's file name and pdf
url; on the spec's two-document example this yields precisely the three
expected rows in order. -/
theorem c4_empty_search_flattening :
    (∀ (sr : List SearchResult) (docs : List Document),
        displayedRows "" sr docs = specFlattenRows docs)
    ∧ displayedRows "" [] exampleDocs = exampleRows := by
  constructor
  · intro sr docs
    induction docs with
    | nil => simp [displayedRows, specFlattenRows, jsTruthy_empty]
    | cons d ds ih =>
        simp only [displayedRows, jsTruthy_empty, if_neg Bool.false_ne_true,
          List.flatMap_cons, specFlattenRows] at ih ⊢
        simp [ih]
  · decide

/-- C10: a document whose fields property is absent contributes zero
rows to the empty-search flattening, wherever it sits in the list, and
the derivation is total on such documents. -/
theorem c10_missing_fields_contribute_nothing
    (sr : List SearchResult) (pre post : List Document) (d : Document)
    (h : d.fields = none) :
    displayedRows "" sr (pre ++ d :: post) = displayedRows "" sr (pre ++ post) := by
  simp [displayedRows, jsTruthy_empty, h]

/-- A document with no fields property, used to witness C10. -/
def docNoFields : Document :=
  { id := "3", file_name := "c.pdf", document_type := "other", pdf_url := none,
    processed_at := "", fields := none }

/-- Witness for C10: inserting docNoFields between the two example
documents leaves the derived rows unchanged. -/
theorem c10_witness :
    displayedRows "" [] (exampleDocs ++ docNoFields :: []) =
      displayedRows "" [] (exampleDocs ++ []) :=
  c10_missing_fields_contribute_nothing [] exampleDocs [] docNoFields rfl

/-- C7 counterexample: durable storage is not cleared only on logout and
on verification failure. On a backend whose login call fails while every
token verifies, handleLogin from a state holding a stored token clears
the storage entry even though no verification failure occurred, refuting
the consequence of the claim that any storage clear during login implies
a failed getCurrentUser call on the token the login returned. -/
theorem c7_counterexample :
    ¬ (∀ (env : Backend) (s : AuthState) (email password : String),
        s.storage ≠ none →
        (handleLogin env s email password).2.storage = none →
        ∃ lr err, env.login email password = Except.ok lr
          ∧ env.getCurrentUser lr.access_token = Except.error err) := by
  intro h
  obtain ⟨lr, err, hlr, _⟩ :=
    h envLoginFail (initialState (some "stale")) "a@b.c" "pw" (by decide) (by decide)
  simp [envLoginFail] at hlr

/-- C7 amended: full characterization of the durable storage entry after
each session operation. A write happens only on a successful login
commit; the entry is cleared on logout, on verification failure (during
login, signup or hydration) and also when the login call itself fails;
a failed signup call and a hydration that finds no truthy stored token
leave the entry untouched; no operation writes anything else. -/
theorem c7_storage_frame (env : Backend) (s : AuthState) (email password : String) :
    (handleLogout s).storage = none
    ∧ (handleLogin env s email password).2.storage =
        (match env.login email password with
         | Except.error _ => none
         | Except.ok lr =>
           match env.getCurrentUser lr.access_token with
           | Except.error _ => none
           | Except.ok _ => some lr.access_token)
    ∧ (handleSignup env s email password).2.storage =
        (match env.signup email password with
         | Except.error _ => s.storage
         | Except.ok _ => (handleLogin env s email password).2.storage)
    ∧ (hydrate env s).storage =
        (match s.storage with
         | none => none
         | some t =>
           if jsTruthy t then
             match env.getCurrentUser t with
             | Except.ok _ => some t
             | Except.error _ => none
           else some t) := by
  refine ⟨rfl, ?_, ?_, ?_⟩
  · cases hl : env.login email password with
    | error e => simp [handleLogin, hl, handleLogout]
    | ok lr =>
        cases hu : env.getCurrentUser lr.access_token with
        | error e => simp [handleLogin, hl, fetchUser, hu, handleLogout]
        | ok u => simp [handleLogin, hl, fetchUser, hu]
  · cases hs : env.signup email password with
    | error e => simp [handleSignup, hs]
    | ok m => simp [handleSignup, hs]
  · cases hst : s.storage with
    | none => simp [hydrate, hydrateSync, hst, hydrateAsync]
    | some t =>
        cases htr : jsTruthy t with
        | false => simp [hydrate, hydrateSync, hst, htr, hydrateAsync]
        | true =>
            cases hu : env.getCurrentUser t with
            | error e =>
                simp [hydrate, hydrateSync, hst, htr, hydrateAsync, fetchUser, hu,
                  handleLogout]
            | ok u =>
                simp [hydrate, hydrateSync, hst, htr, hydrateAsync, fetchUser, hu]

/-- C8: handleSignup runs the signup call first; when it fails the error
propagates with the session and storage untouched, when it succeeds the
result is exactly that of the full login sequence on the same
credentials; and whenever handleSignup signals an error the final state
carries nothing from the failed attempt — it is either the unchanged
prior state or the fully cleared state. -/
theorem c8_signup_composition (env : Backend) (s : AuthState) (email password : String) :
    (∀ err, env.signup email password = Except.error err →
        handleSignup env s email password = (Except.error err, s))
    ∧ (∀ m, env.signup email password = Except.ok m →
        handleSignup env s email password = handleLogin env s email password)
    ∧ ((∃ e, (handleSignup env s email password).1 = Except.error e) →
        (handleSignup env s email password).2 = s
          ∨ (handleSignup env s email password).2 =
              { token := none, user := none, isAuthenticated := false, storage := none }) := by
  refine ⟨?_, ?_, ?_⟩
  · intro err h
    simp [handleSignup, h]
  · intro m h
    simp [handleSignup, h]
  · rintro ⟨e, he⟩
    cases hs : env.signup email password with
    | error e2 => left; simp [handleSignup, hs]
    | ok m =>
        right
        cases hl : env.login email password with
        | error e2 => simp [handleSignup, hs, handleLogin, hl, handleLogout]
        | ok lr =>
            cases hu : env.getCurrentUser lr.access_token with
            | error e3 =>
                simp [handleSignup, hs, handleLogin, hl, fetchUser, hu, handleLogout]
            | ok u =>
                simp [handleSignup, hs, handleLogin, hl, fetchUser, hu] at he

/-- Witness for C8 at a backend whose signup call fails. -/
theorem c8_witness :
    handleSignup envSignupFail (initialState none) "a@b.c" "pw" =
      (Except.error "Email already registered", initialState none) :=
  (c8_signup_composition envSignupFail (initialState none) "a@b.c" "pw").1
    "Email already registered" rfl

/-- C9: end states of startup hydration. With a stored truthy token whose
verification succeeds the session ends Authenticated holding that token
and the returned user, storage untouched, with no login call involved;
with a stored truthy token whose verification fails the session ends
fully cleared with storage removed; with no stored token the session
stays in its initial unauthenticated state. -/
theorem c9_hydration_end_states (env : Backend) (t : String) :
    (t ≠ "" → ∀ u, env.getCurrentUser t = Except.ok u →
        hydrate env (initialState (some t)) =
          { token := some t, user := some u, isAuthenticated := true, storage := some t })
    ∧ (t ≠ "" → ∀ err, env.getCurrentUser t = Except.error err →
        hydrate env (initialState (some t)) =
          { token := none, user := none, isAuthenticated := false, storage := none })
    ∧ hydrate env (initialState none) = initialState none := by
  refine ⟨?_, ?_, rfl⟩
  · intro ht u hu
    simp [hydrate, hydrateSync, initialState, jsTruthy_of_ne_empty t ht,
      hydrateAsync, fetchUser, hu]
  · intro ht err hu
    simp [hydrate, hydrateSync, initialState, jsTruthy_of_ne_empty t ht,
      hydrateAsync, fetchUser, hu, handleLogout]

/-- Witness for C9: a stored valid token hydrates to the authenticated
session without a login call. -/
theorem c9_witness :
    hydrate envGood (initialState (some "tok1")) =
      { token := some "tok1", user := some { id := "u1", email := "a@b.c" },
        isAuthenticated := true, storage := some "tok1" } :=
  (c9_hydration_end_states envGood "tok1").1 (by decide)
    { id := "u1", email := "a@b.c" } (by simp [envGood])

/-- C2 counterexample: not every API wrapper surfaces the backend detail
field. The processDocument wrapper of src/lib/api.ts, on a non-success
response whose body carries a present detail string, still throws its
fixed fallback rather than that detail; and even the detail-reading
client surfaces the fallback when the detail field is present but empty. -/
theorem c2_counterexample :
    LibApi.processDocument { ok := false, detail := some "Invalid PDF", payload := () }
        = Except.error "Failed to process document"
    ∧ "Failed to process document" ≠ "Invalid PDF"
    ∧ DocApi.processDocument { ok := false, detail := some "", payload := () }
        = Except.error "Failed to process document"
    ∧ "Failed to process document" ≠ "" := by
  exact ⟨rfl, by decide, rfl, by decide⟩

/-- C2 amended: on every non-success response, the three auth-client
wrappers and the four wrappers of the detail-reading documents client
surface the backend detail string when it is present and non-empty and
their fixed fallback otherwise — both when the detail field is absent
and when it is present but empty — while the three wrappers of
src/lib/api.ts always surface their fixed fallback, ignoring any detail. -/
theorem c2_error_message_contract (d : String) (hd : d ≠ "")
    (lp : LoginResponse) (u : AuthUser) (m : String) :
    (AuthClient.login { ok := false, detail := some d, payload := lp } = Except.error d
      ∧ AuthClient.login { ok := false, detail := none, payload := lp }
          = Except.error "Login failed"
      ∧ AuthClient.login { ok := false, detail := some "", payload := lp }
          = Except.error "Login failed")
    ∧ (AuthClient.signup { ok := false, detail := some d, payload := m } = Except.error d
      ∧ AuthClient.signup { ok := false, detail := none, payload := m }
          = Except.error "Signup failed"
      ∧ AuthClient.signup { ok := false, detail := some "", payload := m }
          = Except.error "Signup failed")
    ∧ (AuthClient.getCurrentUser { ok := false, detail := some d, payload := u }
          = Except.error d
      ∧ AuthClient.getCurrentUser { ok := false, detail := none, payload := u }
          = Except.error "Failed to get user info"
      ∧ AuthClient.getCurrentUser { ok := false, detail := some "", payload := u }
          = Except.error "Failed to get user info")
    ∧ (DocApi.processDocument { ok := false, detail := some d, payload := () }
          = Except.error d
      ∧ DocApi.processDocument { ok := false, detail := none, payload := () }
          = Except.error "Failed to process document"
      ∧ DocApi.processDocument { ok := false, detail := some "", payload := () }
          = Except.error "Failed to process document")
    ∧ (DocApi.getDocuments { ok := false, detail := some d, payload := () }
          = Except.error d
      ∧ DocApi.getDocuments { ok := false, detail := none, payload := () }
          = Except.error "Failed to fetch documents"
      ∧ DocApi.getDocuments { ok := false, detail := some "", payload := () }
          = Except.error "Failed to fetch documents")
    ∧ (DocApi.searchDocuments { ok := false, detail := some d, payload := () }
          = Except.error d
      ∧ DocApi.searchDocuments { ok := false, detail := none, payload := () }
          = Except.error "Failed to search documents"
      ∧ DocApi.searchDocuments { ok := false, detail := some "", payload := () }
          = Except.error "Failed to search documents")
    ∧ (DocApi.getCategorizedFields { ok := false, detail := some d, payload := () }
          = Except.error d
      ∧ DocApi.getCategorizedFields { ok := false, detail := none, payload := () }
          = Except.error "Failed to categorize fields"
      ∧ DocApi.getCategorizedFields { ok := false, detail := some "", payload := () }
          = Except.error "Failed to categorize fields")
    ∧ (∀ dd : Option String,
        LibApi.processDocument { ok := false, detail := dd, payload := () }
            = Except.error "Failed to process document"
        ∧ LibApi.getDocuments { ok := false, detail := dd, payload := () }
            = Except.error "Failed to fetch documents"
        ∧ LibApi.searchDocuments { ok := false, detail := dd, payload := () }
            = Except.error "Failed to search documents") := by
  have htr := jsTruthy_of_ne_empty d hd
  refine ⟨⟨?_, rfl, rfl⟩, ⟨?_, rfl, rfl⟩, ⟨?_, rfl, rfl⟩, ⟨?_, rfl, rfl⟩,
    ⟨?_, rfl, rfl⟩, ⟨?_, rfl, rfl⟩, ⟨?_, rfl, rfl⟩, fun dd => ⟨rfl, rfl, rfl⟩⟩
  all_goals
    simp [AuthClient.login, AuthClient.signup, AuthClient.getCurrentUser,
      DocApi.processDocument, DocApi.getDocuments, DocApi.searchDocuments,
      DocApi.getCategorizedFields, jsOrElse, htr]

/-- Witness for C2 at a concrete non-success response carrying a
non-empty detail string. -/
theorem c2_witness :
    AuthClient.login
        { ok := false, detail := some "Incorrect email or password",
          payload := { user_id := "u", access_token := "t" } }
      = Except.error "Incorrect email or password" :=
  ((c2_error_message_contract "Incorrect email or password" (by decide)
      { user_id := "u", access_token := "t" } { id := "u", email := "e" } "m").1).1
